import Mathlib

/-
  Verification of container/conductor/docker/engine.py (ansible-container,
  Docker engine implementation).  Python dictionaries whose values are opaque
  to the engine are embedded as functions `String → Option String`; label sets
  likewise.  Python exceptions are embedded as `Except` values: code that can
  raise returns `Except PyErr _` or `Except DockerErr _`, and a try/except
  block is a match on that value.
-/

namespace AnsibleContainer

/-- Python-level exceptions raised by the engine code itself. -/
inductive PyErr where
  | keyError (k : String)
  | valueError
  | ioError (path : String)
  deriving Repr, DecidableEq

/-- Exceptions of the docker client library. -/
inductive DockerErr where
  | notFound
  | imageNotFound
  | apiError
  | buildError
  deriving Repr, DecidableEq

/-- In the docker client library, NotFound and ImageNotFound are subclasses of
APIError, so an `except docker_errors.APIError` handler catches them; BuildError
is a DockerException but not an APIError. -/
def DockerErr.caughtByAPIError : DockerErr → Bool
  | .notFound => true
  | .imageNotFound => true
  | .apiError => true
  | .buildError => false

/-- Python `d.pop(key)` without a default: removes the key and returns the
shrunken dict, raising KeyError when the key is absent
(engine.py line 85: `to_return.pop(key)`). -/
def dictPop (d : String → Option String) (k : String) :
    Except PyErr (String → Option String) :=
  match d k with
  | none => .error (.keyError k)
  | some _ => .ok (fun j => if j = k then none else d j)

/-- Python `d.update(o)`: every key present in `o` overwrites the entry of `d`. -/
def dictUpdate (d o : String → Option String) : String → Option String :=
  fun k =>
    match o k with
    | some v => some v
    | none => d k

/-- engine.py line 61. -/
def FINGERPRINT_LABEL_KEY : String := "com.ansible.container.fingerprint"

/-- engine.py line 62. -/
def LAYER_COMMENT : String :=
  "Built with Ansible Container (https://github.com/ansible/ansible-container)"

/-- engine.py line 36. -/
def DOCKER_VERSION : String := "1.13.1"

/-- engine.py lines 75-76: `u'%s_%s' % (self.project_name, service_name)`. -/
def container_name_for_service (project_name service_name : String) : String :=
  project_name ++ "_" ++ service_name

/-- engine.py lines 78-79: `u'%s-%s' % (self.project_name, service_name)`. -/
def image_name_for_service (project_name service_name : String) : String :=
  project_name ++ "-" ++ service_name

/-- engine.py lines 81-86: copies the service definition and pops the keys
'from' and 'roles' in that order; `pop` without default raises KeyError when a
key is missing, which propagates to the caller. -/
def run_kwargs_for_service (service : String → Option String) :
    Except PyErr (String → Option String) :=
  match dictPop service "from" with
  | .error e => .error e
  | .ok d => dictPop d "roles"

/-- engine.py lines 95-103: the keyword arguments that run_container forwards to
`client.containers.run` (besides `image` and `detach=True`), namely
`run_kwargs_for_service(service_name)` updated with the caller's kwargs. -/
def run_container_params (service overrides : String → Option String) :
    Except PyErr (String → Option String) :=
  match run_kwargs_for_service service with
  | .error e => .error e
  | .ok run_kwargs => .ok (dictUpdate run_kwargs overrides)

/-- Observation helper: the value a (possibly failed) parameter computation
assigns to key `k`; `none` when the computation raised. -/
def paramsAt (e : Except PyErr (String → Option String)) (k : String) :
    Option (Option String) :=
  match e with
  | .ok p => some (p k)
  | .error _ => none

/-- An image as reported by the docker client: its id and its label set. -/
structure DImage where
  id : String
  labels : String → Option String

/-- engine.py lines 206-209: `client.images.list(all=True, filters=dict(label=
'key=value'))` — every image (tagged or not) whose fingerprint label equals the
given value. -/
def imagesListByFingerprint (images : List DImage) (fingerprint : String) :
    List DImage :=
  images.filter (fun img => img.labels FINGERPRINT_LABEL_KEY == some fingerprint)

/-- engine.py lines 204-213: `image, = client.images.list(...)`.  Tuple
unpacking raises ValueError when the list does not have exactly one element —
for an empty list as well as for two or more — and the `except ValueError`
handler returns None in both situations. -/
def get_image_id_by_fingerprint (images : List DImage) (fingerprint : String) :
    Option String :=
  match imagesListByFingerprint images fingerprint with
  | [img] => some img.id
  | _ => none

/-- A UTC wall-clock instant at second precision, as produced by
`datetime.datetime.utcnow()`. -/
structure DateTimeUTC where
  year : Nat
  month : Nat
  day : Nat
  hour : Nat
  minute : Nat
  second : Nat
  deriving Repr, DecidableEq

/-- Zero padding of a decimal number to a fixed width, as strftime does for
each of its numeric directives. -/
def padZeros (width n : Nat) : String :=
  let s := toString n
  String.mk (List.replicate (width - s.length) '0') ++ s

/-- engine.py line 239: `utcnow().strftime('%Y%m%d%H%M%S')`. -/
def strftime_YmdHMS (t : DateTimeUTC) : String :=
  padZeros 4 t.year ++ padZeros 2 t.month ++ padZeros 2 t.day ++
    padZeros 2 t.hour ++ padZeros 2 t.minute ++ padZeros 2 t.second

/-- The image configuration produced by `utils.metadata_to_image_config`: only
its label dictionary is observed by the code under verification, the other
fields flow through untouched. -/
structure ImageConfig where
  labels : String → Option String

/-- engine.py lines 242-245: the dictionary handed to `container.commit`. -/
structure CommitData where
  repository : String
  tag : String
  message : String
  conf : ImageConfig

/-- engine.py lines 231-247: repository is the service's image name, tag is the
current UTC time at second precision, the fingerprint label is written into the
config's Labels, and the message is the fixed provenance comment.  The current
time and the result of `utils.metadata_to_image_config(metadata)` are explicit
arguments. -/
def commit_role_as_layer (project_name service_name fingerprint : String)
    (utcnow : DateTimeUTC) (image_config : ImageConfig) : CommitData :=
  { repository := image_name_for_service project_name service_name
  , tag := strftime_YmdHMS utcnow
  , message := LAYER_COMMENT
  , conf := { labels := fun k =>
      if k = FINGERPRINT_LABEL_KEY then some fingerprint else image_config.labels k } }

/-- A committed image record as the runtime creates it from the commit data. -/
structure CommittedImage where
  id : String
  repository : String
  tag : String
  comment : String
  labels : String → Option String

/-- Modelled from the spec: the container runtime's commit operation is an
external collaborator (spec section 6) whose implementation is outside this
repository; per the spec it creates a new Image Record carrying the submitted
repository, tag, comment and label set, and hands the new image's id back to
the engine, which returns it (engine.py line 247). -/
def runtime_commit (new_image_id : String) (cd : CommitData) :
    CommittedImage × String :=
  ({ id := new_image_id
   , repository := cd.repository
   , tag := cd.tag
   , comment := cd.message
   , labels := cd.conf.labels }, new_image_id)

/-- The whole commit operation: the image record the runtime creates and the
value commit_role_as_layer returns. -/
def commit_role_as_layer_result (project_name service_name fingerprint : String)
    (utcnow : DateTimeUTC) (image_config : ImageConfig) (new_image_id : String) :
    CommittedImage × String :=
  runtime_commit new_image_id
    (commit_role_as_layer project_name service_name fingerprint utcnow image_config)

/-- Python truthiness of `os.environ.get(k)`: the key is set and nonempty. -/
def envTruthy (env : String → Option String) (k : String) : Bool :=
  match env k with
  | some v => v != ""
  | none => false

/-- engine.py lines 115-128: the environment mapping and volume set composed by
run_conductor before the devel check.  Volumes are (host path, bind path, mode)
triples; the ambient process environment is the argument `env`. -/
def run_conductor_wiring (env : String → Option String) (base_path : String) :
    List (String × String) × List (String × String × String) :=
  let volumes : List (String × String × String) := [(base_path, "/src", "ro")]
  if envTruthy env "DOCKER_HOST" then
    let environ : List (String × String) :=
      [("DOCKER_HOST", (env "DOCKER_HOST").getD "")]
    let step :=
      if envTruthy env "DOCKER_CERT_PATH" then
        (environ ++ [("DOCKER_CERT_PATH", "/etc/docker")],
         volumes ++ [((env "DOCKER_CERT_PATH").getD "", "/etc/docker", "ro")])
      else (environ, volumes)
    let environ2 :=
      if envTruthy env "DOCKER_TLS_VERIFY" then
        step.1 ++ [("DOCKER_TLS_VERIFY", (env "DOCKER_TLS_VERIFY").getD "")]
      else step.1
    (environ2, step.2)
  else
    ([("DOCKER_HOST", "unix:///var/run/docker.sock")],
     volumes ++ [("/var/run/docker.sock", "/var/run/docker.sock", "rw")])

/-- Requests the engine issues against a container through the docker client. -/
inductive ContainerAction where
  | stopWithGrace (seconds : Nat)
  | kill
  | remove
  deriving Repr, DecidableEq

/-- `client.containers.get(container_id)`: the container when it exists, a
NotFound error (an APIError subclass) otherwise.  The client's container set is
the explicit argument `containers`. -/
def containers_get (containers : List String) (container_id : String) :
    Except DockerErr String :=
  if container_id ∈ containers then .ok container_id else .error .notFound

/-- engine.py lines 168-177: `except docker_errors.APIError: pass`, otherwise
`container.kill()` when forceful and `container.stop(timeout=60)` when not.
The result lists the requests issued to the backend. -/
def stop_container (containers : List String) (container_id : String)
    (forcefully : Bool) : Except DockerErr (List ContainerAction) :=
  match containers_get containers container_id with
  | .error e => if e.caughtByAPIError then .ok [] else .error e
  | .ok _ => if forcefully then .ok [.kill] else .ok [.stopWithGrace 60]

/-- engine.py lines 188-194: `except docker_errors.APIError: pass`, otherwise
`container.remove()`. -/
def delete_container (containers : List String) (container_id : String) :
    Except DockerErr (List ContainerAction) :=
  match containers_get containers container_id with
  | .error e => if e.caughtByAPIError then .ok [] else .error e
  | .ok _ => .ok [.remove]

/-- engine.py lines 269-270: the declared project configuration files. -/
def config_file_names : List String :=
  ["ansible.cfg", "ansible-requirements.txt", "requirements.yml"]

/-- `os.path.join` on already-normalized relative components. -/
def pjoin (a b : String) : String := a ++ "/" ++ b

/-- `tarball.add(path, arcname)`: appends the (arcname, source path) entry to
the archive manifest, raising an IOError when the source path does not exist on
disk. -/
def tar_add (file_exists : String → Bool) (archive : List (String × String))
    (path arcname : String) : Except PyErr (List (String × String)) :=
  if file_exists path then .ok (archive ++ [(arcname, path)])
  else .error (.ioError path)

/-- engine.py lines 269-274: for each declared configuration file the code
tests `os.path.exists(filename)` — the bare file name, resolved against the
process working directory — and when that test passes adds
`os.path.join(source_dir, filename)` to the archive. -/
def add_config_files (file_exists : String → Bool) (archive_fs : String → Bool)
    (source_dir : String) (archive : List (String × String)) :
    List String → Except PyErr (List (String × String))
  | [] => .ok archive
  | filename :: rest =>
    if file_exists filename then
      match tar_add archive_fs archive (pjoin source_dir filename)
          (pjoin "build-src" filename) with
      | .error e => .error e
      | .ok archive2 => add_config_files file_exists archive_fs source_dir archive2 rest
    else add_config_files file_exists archive_fs source_dir archive rest

/-- The fixed paths of one build_conductor_image invocation: the caller's base
path, the private temporary directory, the engine's bundled files directory
(FILES_PATH), the conductor source directory (utils.conductor_dir) and its
parent directory. -/
structure ConductorBuildPaths where
  base_path : String
  temp_dir : String
  files_path : String
  conductor_dir : String
  conductor_parent : String
  deriving Repr, DecidableEq

/-- engine.py lines 261-296: the archive manifest assembled by
build_conductor_image, as (arcname, source path) pairs in insertion order.
`os.path.normpath(base_path)` is modelled as the identity on an already-normal
path.  The `.touch` placeholder and the rendered Dockerfile are created by the
code inside the temporary directory before being added, so the existence test
is extended with those two paths. -/
def build_conductor_context (file_exists : String → Bool)
    (P : ConductorBuildPaths) : Except PyErr (List (String × String)) :=
  let source_dir := P.base_path
  let fsx : String → Bool := fun p =>
    file_exists p || p == pjoin P.temp_dir ".touch" || p == pjoin P.temp_dir "Dockerfile"
  match add_config_files file_exists fsx source_dir [] config_file_names with
  | .error e => .error e
  | .ok arch =>
  match tar_add fsx arch (pjoin P.temp_dir ".touch") "build-src/.touch" with
  | .error e => .error e
  | .ok arch =>
  match tar_add fsx arch (pjoin P.files_path "get-pip.py") "contrib/get-pip.py" with
  | .error e => .error e
  | .ok arch =>
  match tar_add fsx arch P.conductor_dir "conductor-src/conductor" with
  | .error e => .error e
  | .ok arch =>
  match tar_add fsx arch (pjoin P.conductor_parent "conductor-setup.py")
      "conductor-src/setup.py" with
  | .error e => .error e
  | .ok arch =>
  match tar_add fsx arch (pjoin P.conductor_parent "conductor-requirements.txt")
      "conductor-src/requirements.txt" with
  | .error e => .error e
  | .ok arch =>
  tar_add fsx arch (pjoin P.temp_dir "Dockerfile") "Dockerfile"

/-- Outcome of the docker build of the conductor image. -/
inductive BuildOutcome where
  | success (image_id : String)
  | failure
  deriving Repr, DecidableEq

/-- The high-level `client.images.build` of the docker client (external
collaborator): raises BuildError when the build fails, returns the built image
— whose id the engine then returns — on success. -/
def images_build : BuildOutcome → Except DockerErr String
  | .success i => .ok i
  | .failure => .error .buildError

/-- engine.py lines 309-331, the build phase of build_conductor_image.  In
debug mode the low-level streaming `client.api.build` is used: build failures
are reported inside the streamed lines and raise nothing, the lines are only
logged, and the code then returns `get_latest_image_id_for_service('conductor')`
— the argument `latest_conductor_image`, a pre-existing id or None — whatever
the outcome was; the source's own comment on line 310 reads
FIXME: Error out properly if build of conductor fails.  In non-debug mode the
high-level `client.images.build` is called and `image.id` returned. -/
def build_conductor_finish (debug : Bool) (outcome : BuildOutcome)
    (latest_conductor_image : Option String) : Except DockerErr (Option String) :=
  if debug then .ok latest_conductor_image
  else
    match images_build outcome with
    | .error e => .error e
    | .ok i => .ok (some i)

/-- C9: for every project name and service name the container name is the
project name, an underscore, and the service name, and the image name is the
project name, a hyphen, and the service name; both are pure functions of the
pair, and project "myapp" with service "web" yields container name "myapp_web"
and image name "myapp-web". -/
theorem naming_spec (project service : String) :
    container_name_for_service project service = project ++ "_" ++ service
    ∧ image_name_for_service project service = project ++ "-" ++ service
    ∧ container_name_for_service "myapp" "web" = "myapp_web"
    ∧ image_name_for_service "myapp" "web" = "myapp-web" :=
  ⟨rfl, rfl, rfl, rfl⟩

/-- C7: for every container known to the client, stop_container with
forcefully=false issues exactly one request, a graceful stop with the grace
period fixed at 60 seconds before the backend's hard kill, and with
forcefully=true issues exactly one immediate kill request with no stop
request and no waiting. -/
theorem stop_container_grace_and_kill_spec (containers : List String)
    (container_id : String) (h : container_id ∈ containers) :
    stop_container containers container_id false = .ok [.stopWithGrace 60]
    ∧ stop_container containers container_id true = .ok [.kill] := by
  constructor <;> simp [stop_container, containers_get, h]

/-- Witness for C7 at the concrete client state ["web1"]. -/
theorem stop_container_grace_and_kill_spec_witness :
    stop_container ["web1"] "web1" false = .ok [.stopWithGrace 60]
    ∧ stop_container ["web1"] "web1" true = .ok [.kill] :=
  stop_container_grace_and_kill_spec ["web1"] "web1" (by decide)

/-- C8: for every container id that names no existing container, stop_container
(with either forcefulness) and delete_container both catch the client's
NotFound error (an APIError) and return normally, issuing no request. -/
theorem stop_delete_absent_container_ok (containers : List String)
    (container_id : String) (forcefully : Bool) (h : container_id ∉ containers) :
    stop_container containers container_id forcefully = .ok []
    ∧ delete_container containers container_id = .ok [] := by
  constructor <;>
    simp [stop_container, delete_container, containers_get, h, DockerErr.caughtByAPIError]

/-- Witness for C8 at the empty client state. -/
theorem stop_delete_absent_container_ok_witness :
    stop_container [] "ghost" false = .ok []
    ∧ delete_container [] "ghost" = .ok [] :=
  stop_delete_absent_container_ok [] "ghost" false (by decide)

/-- C5: in debug mode a failed conductor build is not propagated — the code
returns the pre-existing latest conductor image id, or None when there is none,
exactly as on success — while the non-debug path does propagate the failure.
This evaluates the code at the failing input (debug mode, failed build). -/
theorem build_conductor_finish_debug_swallows_failure :
    build_conductor_finish true .failure (some "sha256:stale") = .ok (some "sha256:stale")
    ∧ build_conductor_finish true .failure none = .ok none
    ∧ build_conductor_finish false .failure none = .error .buildError :=
  ⟨rfl, rfl, rfl⟩

/-- C10: run_kwargs_for_service raises KeyError when the service definition
lacks the key 'from' (whatever 'roles' holds), and raises KeyError when 'from'
is present but 'roles' is missing; in both situations run_container's parameter
computation propagates that KeyError instead of completing. -/
theorem run_kwargs_missing_key_raises (svc overrides : String → Option String) :
    (svc "from" = none →
      run_kwargs_for_service svc = .error (.keyError "from")
      ∧ run_container_params svc overrides = .error (.keyError "from"))
    ∧ (∀ v, svc "from" = some v → svc "roles" = none →
      run_kwargs_for_service svc = .error (.keyError "roles")
      ∧ run_container_params svc overrides = .error (.keyError "roles")) := by
  constructor
  · intro h
    have h1 : run_kwargs_for_service svc = .error (.keyError "from") := by
      simp [run_kwargs_for_service, dictPop, h]
    exact ⟨h1, by simp [run_container_params, h1]⟩
  · intro v hv hr
    have h1 : run_kwargs_for_service svc = .error (.keyError "roles") := by
      simp [run_kwargs_for_service, dictPop, hv, hr]
    exact ⟨h1, by simp [run_container_params, h1]⟩

/-- Witness for C10: a service definition with 'roles' but no 'from', and one
with 'from' but no 'roles'. -/
theorem run_kwargs_missing_key_raises_witness :
    (run_kwargs_for_service (fun k => if k = "roles" then some "r" else none)
        = .error (.keyError "from"))
    ∧ (run_kwargs_for_service (fun k => if k = "from" then some "centos:7" else none)
        = .error (.keyError "roles")) :=
  ⟨((run_kwargs_missing_key_raises
       (fun k => if k = "roles" then some "r" else none) (fun _ => none)).1 rfl).1,
   ((run_kwargs_missing_key_raises
       (fun k => if k = "from" then some "centos:7" else none) (fun _ => none)).2
      "centos:7" rfl rfl).1⟩

/-- Concrete image records used to exercise the fingerprint lookup. -/
def fpImageA : DImage :=
  { id := "sha256:aaa"
  , labels := fun k => if k = FINGERPRINT_LABEL_KEY then some "fp0" else none }

/-- A second image carrying the same fingerprint label value. -/
def fpImageB : DImage :=
  { id := "sha256:bbb"
  , labels := fun k => if k = FINGERPRINT_LABEL_KEY then some "fp0" else none }

/-- C1 counterexample: with two images carrying the fingerprint label "fp0" the
lookup returns None — the very same silent absent value it returns when zero
images match — rather than raising an ambiguous-cache error: the ValueError
from the failed unpacking is caught by the same handler as the empty case. -/
theorem get_image_id_by_fingerprint_two_matches_silent_none :
    get_image_id_by_fingerprint [fpImageA, fpImageB] "fp0" = none
    ∧ get_image_id_by_fingerprint [] "fp0" = none := ⟨rfl, rfl⟩

/-- C1 as amended: zero matching images give absent, exactly one gives that
image's id, and two or more give absent again (the unpacking ValueError is
caught and None returned — the ambiguous case is indistinguishable from the
empty one, no error reaches the caller). -/
theorem get_image_id_by_fingerprint_match_count_spec (images : List DImage)
    (fingerprint : String) :
    (imagesListByFingerprint images fingerprint = [] →
      get_image_id_by_fingerprint images fingerprint = none)
    ∧ (∀ img, imagesListByFingerprint images fingerprint = [img] →
      get_image_id_by_fingerprint images fingerprint = some img.id)
    ∧ (2 ≤ (imagesListByFingerprint images fingerprint).length →
      get_image_id_by_fingerprint images fingerprint = none) := by
  refine ⟨?_, ?_, ?_⟩
  · intro h
    simp [get_image_id_by_fingerprint, h]
  · intro img h
    simp [get_image_id_by_fingerprint, h]
  · intro h
    rcases hm : imagesListByFingerprint images fingerprint with _ | ⟨a, _ | ⟨b, t⟩⟩
    · rw [hm] at h; simp at h
    · rw [hm] at h; simp at h
    · simp [get_image_id_by_fingerprint, hm]

/-- Witness for C1's amended statement: a singleton match yields that image's
id, and a double match yields none. -/
theorem get_image_id_by_fingerprint_match_count_spec_witness :
    get_image_id_by_fingerprint [fpImageA] "fp0" = some "sha256:aaa"
    ∧ get_image_id_by_fingerprint [fpImageB, fpImageA] "fp0" = none :=
  ⟨(get_image_id_by_fingerprint_match_count_spec [fpImageA] "fp0").2.1 fpImageA rfl,
   (get_image_id_by_fingerprint_match_count_spec [fpImageB, fpImageA] "fp0").2.2
     (by decide)⟩

/-- C2 counterexample: when the caller's overrides themselves contain the key
'from', run_container forwards it to the backend — `run_kwargs.update(kwargs)`
runs after the strip, so the override re-introduces the key with its value. -/
theorem run_container_params_forwards_from_override :
    paramsAt (run_container_params
      (fun k => if k = "from" then some "centos:7"
                else if k = "roles" then some "base" else none)
      (fun k => if k = "from" then some "debian:9" else none)) "from"
      = some (some "debian:9") := rfl

/-- C2 as amended: when the service definition holds both build-only keys, the
parameters run_container sends to the backend are exactly the declared
parameters with 'from' and 'roles' removed, updated with the overrides
(override wins on every key conflict); consequently 'from' and 'roles' from
the declared parameters never reach the backend, and are forwarded only when
the overrides themselves contain them. -/
theorem run_container_params_merge_spec (svc overrides : String → Option String)
    (f r : String) (hf : svc "from" = some f) (hr : svc "roles" = some r) :
    (∀ k, paramsAt (run_container_params svc overrides) k =
        some (match overrides k with
          | some v => some v
          | none => if k = "from" ∨ k = "roles" then none else svc k))
    ∧ (overrides "from" = none →
        paramsAt (run_container_params svc overrides) "from" = some none)
    ∧ (overrides "roles" = none →
        paramsAt (run_container_params svc overrides) "roles" = some none) := by
  have hmain : ∀ k, paramsAt (run_container_params svc overrides) k =
      some (match overrides k with
        | some v => some v
        | none => if k = "from" ∨ k = "roles" then none else svc k) := by
    intro k
    simp only [run_container_params, run_kwargs_for_service, dictPop, hf, hr]
    simp only [paramsAt, dictUpdate]
    cases hov : overrides k with
    | some v => simp [dictUpdate, hov]
    | none =>
      by_cases h1 : k = "from"
      · subst h1
        simp [dictUpdate, hov]
      · by_cases h2 : k = "roles"
        · subst h2
          simp [dictUpdate, hov]
        · simp [dictUpdate, hov, h1, h2]
  refine ⟨hmain, ?_, ?_⟩
  · intro h
    rw [hmain "from"]
    simp [h]
  · intro h
    rw [hmain "roles"]
    simp [h]

/-- Witness for C2's amended statement at a concrete service definition and
override set: the override wins on the conflicting key, a declared-only key
survives, and the stripped keys are absent when the overrides lack them. -/
theorem run_container_params_merge_spec_witness :
    paramsAt (run_container_params
        (fun k => if k = "from" then some "centos:7"
                  else if k = "roles" then some "base"
                  else if k = "ports" then some "80" else none)
        (fun k => if k = "ports" then some "8080" else none)) "ports"
      = some (some "8080")
    ∧ paramsAt (run_container_params
        (fun k => if k = "from" then some "centos:7"
                  else if k = "roles" then some "base"
                  else if k = "ports" then some "80" else none)
        (fun k => if k = "ports" then some "8080" else none)) "from"
      = some none :=
  ⟨by
    have h := (run_container_params_merge_spec
      (fun k => if k = "from" then some "centos:7"
                else if k = "roles" then some "base"
                else if k = "ports" then some "80" else none)
      (fun k => if k = "ports" then some "8080" else none)
      "centos:7" "base" rfl rfl).1 "ports"
    simpa using h,
   (run_container_params_merge_spec
      (fun k => if k = "from" then some "centos:7"
                else if k = "roles" then some "base"
                else if k = "ports" then some "80" else none)
      (fun k => if k = "ports" then some "8080" else none)
      "centos:7" "base" rfl rfl).2.1 rfl⟩

/-- C3: every commit produces an image whose repository is the service's image
name, whose tag is the current UTC time at second precision, which carries the
fingerprint label set to the given fingerprint and the fixed provenance
comment, and the operation returns that new image's id; the instant
2024-01-02T03:04:05 UTC formats to the tag "20240102030405". -/
theorem commit_role_as_layer_spec (project service fingerprint : String)
    (utcnow : DateTimeUTC) (image_config : ImageConfig) (new_image_id : String) :
    (commit_role_as_layer_result project service fingerprint utcnow image_config
        new_image_id).1.repository = image_name_for_service project service
    ∧ (commit_role_as_layer_result project service fingerprint utcnow image_config
        new_image_id).1.tag = strftime_YmdHMS utcnow
    ∧ (commit_role_as_layer_result project service fingerprint utcnow image_config
        new_image_id).1.labels FINGERPRINT_LABEL_KEY = some fingerprint
    ∧ (commit_role_as_layer_result project service fingerprint utcnow image_config
        new_image_id).1.comment = LAYER_COMMENT
    ∧ (commit_role_as_layer_result project service fingerprint utcnow image_config
        new_image_id).2
      = (commit_role_as_layer_result project service fingerprint utcnow image_config
        new_image_id).1.id
    ∧ strftime_YmdHMS ⟨2024, 1, 2, 3, 4, 5⟩ = "20240102030405" := by
  refine ⟨rfl, rfl, ?_, rfl, rfl, by decide⟩
  simp [commit_role_as_layer_result, commit_role_as_layer, runtime_commit]

/-- The fixed paths of a concrete build invocation: base path /proj, temporary
directory /tmp/t, bundled files under /app/files, conductor source at
/app/conductor. -/
def ctxPaths0 : ConductorBuildPaths :=
  ⟨"/proj", "/tmp/t", "/app/files", "/app/conductor", "/app"⟩

/-- A disk state where ansible.cfg exists under the base path /proj but not in
the process working directory, and all bundled assets exist. -/
def fsPresentUnderBase : String → Bool := fun p =>
  ["/proj/ansible.cfg", "/app/files/get-pip.py", "/app/conductor",
   "/app/conductor-setup.py", "/app/conductor-requirements.txt"].contains p

/-- A disk state where ansible.cfg exists in the process working directory but
not under the base path /proj, and all bundled assets exist. -/
def fsPresentInCwd : String → Bool := fun p =>
  ["ansible.cfg", "/app/files/get-pip.py", "/app/conductor",
   "/app/conductor-setup.py", "/app/conductor-requirements.txt"].contains p

/-- C4, evaluated at the failing inputs.  The existence test on line 272 reads
`os.path.exists(filename)` — the bare name, resolved against the process
working directory — although the file added is `source_dir/filename`.  First
conjunct: a configuration file present under the base path is omitted from the
archive (no "build-src/ansible.cfg" entry) although it exists on disk there,
while the placeholder, the bootstrap installer, the helper source tree with its
packaging metadata and the rendered build recipe are all included.  Third
conjunct: a configuration file present in the working directory but absent
under the base path makes the archive-add raise, failing the build instead of
skipping the file. -/
theorem build_conductor_context_cwd_exists_check_bug :
    build_conductor_context fsPresentUnderBase ctxPaths0 =
      .ok [("build-src/.touch", "/tmp/t/.touch"),
           ("contrib/get-pip.py", "/app/files/get-pip.py"),
           ("conductor-src/conductor", "/app/conductor"),
           ("conductor-src/setup.py", "/app/conductor-setup.py"),
           ("conductor-src/requirements.txt", "/app/conductor-requirements.txt"),
           ("Dockerfile", "/tmp/t/Dockerfile")]
    ∧ fsPresentUnderBase "/proj/ansible.cfg" = true
    ∧ build_conductor_context fsPresentInCwd ctxPaths0 =
        .error (.ioError "/proj/ansible.cfg") :=
  ⟨rfl, rfl, rfl⟩

/-- A remote-endpoint process environment: DOCKER_HOST, DOCKER_CERT_PATH and
DOCKER_TLS_VERIFY all set. -/
def envRemote : String → Option String := fun k =>
  if k = "DOCKER_HOST" then some "tcp://192.0.2.10:2376"
  else if k = "DOCKER_CERT_PATH" then some "/home/user/.docker"
  else if k = "DOCKER_TLS_VERIFY" then some "1"
  else none

/-- A process environment with no docker variables set. -/
def envLocalOnly : String → Option String := fun _ => none

/-- C6: when DOCKER_HOST is set (to a nonempty value) its value is forwarded
into the conductor's environment; when DOCKER_CERT_PATH is also configured the
certificate directory is mounted read-only at /etc/docker, and when
DOCKER_TLS_VERIFY is set its value is forwarded as well; when DOCKER_HOST is
absent, the local control socket /var/run/docker.sock is instead mounted
read-write and the conductor is pointed at it. -/
theorem run_conductor_wiring_spec (env : String → Option String)
    (base_path : String) :
    (∀ h, env "DOCKER_HOST" = some h → h ≠ "" →
      ((run_conductor_wiring env base_path).1.lookup "DOCKER_HOST" = some h
       ∧ (∀ c, env "DOCKER_CERT_PATH" = some c → c ≠ "" →
           (c, "/etc/docker", "ro") ∈ (run_conductor_wiring env base_path).2)
       ∧ (∀ t, env "DOCKER_TLS_VERIFY" = some t → t ≠ "" →
           (run_conductor_wiring env base_path).1.lookup "DOCKER_TLS_VERIFY"
             = some t)))
    ∧ (env "DOCKER_HOST" = none →
        ((run_conductor_wiring env base_path).1.lookup "DOCKER_HOST"
            = some "unix:///var/run/docker.sock"
         ∧ ("/var/run/docker.sock", "/var/run/docker.sock", "rw")
            ∈ (run_conductor_wiring env base_path).2)) := by
  constructor
  · intro h hh hne
    have htr : envTruthy env "DOCKER_HOST" = true := by
      simp [envTruthy, hh, hne]
    refine ⟨?_, ?_, ?_⟩
    · by_cases hc : envTruthy env "DOCKER_CERT_PATH" <;>
        by_cases ht : envTruthy env "DOCKER_TLS_VERIFY" <;>
        simp [run_conductor_wiring, htr, hc, ht, hh, List.lookup]
    · intro c hcv hcne
      have hct : envTruthy env "DOCKER_CERT_PATH" = true := by
        simp [envTruthy, hcv, hcne]
      by_cases ht : envTruthy env "DOCKER_TLS_VERIFY" <;>
        simp [run_conductor_wiring, htr, hct, ht, hcv]
    · intro t htv htne
      have htt : envTruthy env "DOCKER_TLS_VERIFY" = true := by
        simp [envTruthy, htv, htne]
      by_cases hc : envTruthy env "DOCKER_CERT_PATH" <;>
        simp [run_conductor_wiring, htr, hc, htt, htv, List.lookup]
  · intro hh
    have htr : envTruthy env "DOCKER_HOST" = false := by
      simp [envTruthy, hh]
    constructor <;> simp [run_conductor_wiring, htr, List.lookup]

/-- Witness for C6 at two concrete environments: a fully-configured remote
endpoint, and an environment with DOCKER_HOST unset. -/
theorem run_conductor_wiring_spec_witness :
    ((run_conductor_wiring envRemote "/proj").1.lookup "DOCKER_HOST"
        = some "tcp://192.0.2.10:2376"
     ∧ ("/home/user/.docker", "/etc/docker", "ro")
        ∈ (run_conductor_wiring envRemote "/proj").2
     ∧ (run_conductor_wiring envRemote "/proj").1.lookup "DOCKER_TLS_VERIFY"
        = some "1")
    ∧ ((run_conductor_wiring envLocalOnly "/proj").1.lookup "DOCKER_HOST"
        = some "unix:///var/run/docker.sock"
       ∧ ("/var/run/docker.sock", "/var/run/docker.sock", "rw")
        ∈ (run_conductor_wiring envLocalOnly "/proj").2) :=
  ⟨⟨((run_conductor_wiring_spec envRemote "/proj").1 "tcp://192.0.2.10:2376"
       rfl (by decide)).1,
    ((run_conductor_wiring_spec envRemote "/proj").1 "tcp://192.0.2.10:2376"
       rfl (by decide)).2.1 "/home/user/.docker" rfl (by decide),
    ((run_conductor_wiring_spec envRemote "/proj").1 "tcp://192.0.2.10:2376"
       rfl (by decide)).2.2 "1" rfl (by decide)⟩,
   (run_conductor_wiring_spec envLocalOnly "/proj").2 rfl⟩

end AnsibleContainer
